import Mathlib

/-!
Shallow embedding of the QA-agent orchestration core
(`src/qa_agent/core/agent.py`), the accessibility detector
(`src/qa_agent/detectors/accessibility_detector.py`), the performance
detector (`src/qa_agent/detectors/performance_detector.py`) and the
web-scraper mock (`src/qa_agent/core/web_scraper.py`), together with
theorems settling the spec claims about scoring, summary construction,
failure isolation and propagation, detector enablement and the
accessibility detector's issue construction.

Modelling conventions:
* Python dicts with string keys are association lists
  (`List (String × _)`); `dict.get`/`in` become `List.lookup`/`Option`.
* Python floats in the scoring code only ever hold integer values
  (penalties and 100 are integers), so scores are embedded as `Int`;
  the one non-integer float, the constant confidence `0.9`, is a `ℚ`.
* `uuid.uuid4()` is environmental; issue-id generation is passed in as
  an explicit supply (`uidGen : Nat → String`).
* `asyncio.gather(..., return_exceptions=True)` resolves each task to a
  value or an exception; a finished task is `Except String _`.
-/

/-- `IssueType` enum from `agent.py` (values are the Python `.value` strings,
see `IssueType.value`). -/
inductive IssueType where
  | bug
  | accessibility
  | performance
  | security
  | ux
  | visual
  deriving DecidableEq, Repr

/-- The `.value` string of each `IssueType` member. -/
def IssueType.value : IssueType → String
  | .bug => "bug"
  | .accessibility => "accessibility"
  | .performance => "performance"
  | .security => "security"
  | .ux => "user_experience"
  | .visual => "visual_regression"

/-- `IssueSeverity` enum from `agent.py`. -/
inductive IssueSeverity where
  | low
  | medium
  | high
  | critical
  deriving DecidableEq, Repr

/-- The `.value` string of each `IssueSeverity` member. -/
def IssueSeverity.value : IssueSeverity → String
  | .low => "low"
  | .medium => "medium"
  | .high => "high"
  | .critical => "critical"

/-- Element sub-dict of a raw accessibility observation
(`element.get('selector')`, `element.get('tagName', 'unknown')`). -/
structure ElementInfo where
  tagName : Option String := none
  selector : Option String := none
  deriving DecidableEq, Repr

/-- A metadata value: the detector stores either a string (the WCAG
guideline) or the raw element details. -/
inductive MetaValue where
  | str (s : String)
  | elem (e : ElementInfo)
  deriving DecidableEq, Repr

/-- `QAIssue` dataclass from `agent.py`. -/
structure QAIssue where
  id : String
  type : IssueType
  severity : IssueSeverity
  title : String
  description : String
  element_selector : Option String := none
  screenshot_path : Option String := none
  steps_to_reproduce : List String := []
  expected_behavior : Option String := none
  actual_behavior : Option String := none
  confidence : ℚ := 1
  metadata : List (String × MetaValue) := []
  deriving DecidableEq, Repr

/-- Summary dict built by `QAAgent._create_summary`: counters are
insertion-ordered association lists, exactly like Python dicts. -/
structure Summary where
  total_issues : Nat
  by_severity : List (String × Nat)
  by_type : List (String × Nat)
  critical_issues : List (String × String)
  deriving DecidableEq, Repr

/-- Result value of one analyzer as far as the orchestrator can see it:
`_calculate_metrics` only ever reads a `score` field
(`analysis.get('performance', {}).get('score', 100)`); everything else
in the result dict is opaque to the orchestrator and is not modelled. -/
structure AnalyzerResult where
  score : Option Int := none
  deriving DecidableEq, Repr

/-- Metrics dict built by `QAAgent._calculate_metrics`. -/
structure Metrics where
  quality_score : Int
  accessibility_score : Int
  performance_score : Int
  security_score : Int
  ux_score : Int
  deriving DecidableEq, Repr

/-- `QAReport` dataclass from `agent.py`; `timestamp` and
`execution_time_ms` are wall-clock readings, passed in as parameters. -/
structure QAReport where
  url : String
  timestamp : ℚ
  issues : List QAIssue
  summary : Summary
  metrics : Metrics
  recommendations : List String
  execution_time_ms : ℚ
  deriving DecidableEq, Repr

/-- `d[k] = d.get(k, 0) + 1` on a Python dict: increment in place if the
key exists, else append the key with value 1 (insertion order kept). -/
def dictIncr : List (String × Nat) → String → List (String × Nat)
  | [], k => [(k, 1)]
  | (k', v) :: rest, k =>
      if k' = k then (k', v + 1) :: rest else (k', v) :: dictIncr rest k

/-- One iteration of the `for issue in issues` loop in
`QAAgent._create_summary`. -/
def summaryStep (summary : Summary) (issue : QAIssue) : Summary :=
  { summary with
    by_severity := dictIncr summary.by_severity issue.severity.value,
    by_type := dictIncr summary.by_type issue.type.value,
    critical_issues :=
      if issue.severity = IssueSeverity.critical then
        summary.critical_issues ++ [(issue.title, issue.type.value)]
      else
        summary.critical_issues }

/-- `QAAgent._create_summary`: seed dict with `total_issues = len(issues)`
and empty counters, then a single pass over the issue list. -/
def createSummary (issues : List QAIssue) : Summary :=
  issues.foldl summaryStep
    { total_issues := issues.length
      by_severity := []
      by_type := []
      critical_issues := [] }

/-- `QAAgent._calculate_accessibility_score`. -/
def calculateAccessibilityScore (issues : List QAIssue) : Int :=
  let accessibility_issues := issues.filter (fun i => i.type = IssueType.accessibility)
  if accessibility_issues = [] then 100
  else
    let penalty := (accessibility_issues.map (fun issue =>
      if issue.severity = IssueSeverity.critical then (25 : Int)
      else if issue.severity = IssueSeverity.high then 15
      else if issue.severity = IssueSeverity.medium then 5
      else 1)).sum
    max 0 (100 - penalty)

/-- `QAAgent._calculate_security_score`. -/
def calculateSecurityScore (issues : List QAIssue) : Int :=
  let security_issues := issues.filter (fun i => i.type = IssueType.security)
  if security_issues = [] then 100
  else
    let penalty := (security_issues.map (fun issue =>
      if issue.severity = IssueSeverity.critical then (40 : Int)
      else if issue.severity = IssueSeverity.high then 25
      else if issue.severity = IssueSeverity.medium then 10
      else 2)).sum
    max 0 (100 - penalty)

/-- `QAAgent._calculate_ux_score`. -/
def calculateUxScore (issues : List QAIssue) : Int :=
  let ux_issues := issues.filter (fun i => i.type = IssueType.ux)
  if ux_issues = [] then 100
  else
    let penalty := (ux_issues.map (fun issue =>
      if issue.severity = IssueSeverity.critical then (20 : Int)
      else if issue.severity = IssueSeverity.high then 12
      else if issue.severity = IssueSeverity.medium then 6
      else 2)).sum
    max 0 (100 - penalty)

/-- `QAAgent._calculate_metrics`. -/
def calculateMetrics (issues : List QAIssue) (analysis : List (String × AnalyzerResult)) :
    Metrics :=
  let total_issues : Int := issues.length
  let critical_issues : Int :=
    (issues.filter (fun i => i.severity = IssueSeverity.critical)).length
  let high_issues : Int :=
    (issues.filter (fun i => i.severity = IssueSeverity.high)).length
  let quality_score :=
    max 0 (100 - (critical_issues * 25 + high_issues * 10 + total_issues * 2))
  { quality_score := quality_score
    accessibility_score := calculateAccessibilityScore issues
    performance_score :=
      match analysis.lookup "performance" with
      | some r =>
          match r.score with
          | some s => s
          | none => 100
      | none => 100
    security_score := calculateSecurityScore issues
    ux_score := calculateUxScore issues }

example :
    calculateMetrics [] [] =
      { quality_score := 100, accessibility_score := 100, performance_score := 100,
        security_score := 100, ux_score := 100 } := by decide

/-- Accessibility sub-bundle of the page snapshot
(`page_data['accessibility']`, with `accessibility_data.get('issues', [])`). -/
structure RawObservation where
  type : String
  element : ElementInfo
  message : String
  deriving DecidableEq, Repr

/-- `accessibility` entry of the page snapshot; `issues` defaults to `[]`
as in `accessibility_data.get('issues', [])`. -/
structure AccessibilityData where
  issues : List RawObservation := []
  deriving DecidableEq, Repr

/-- `performance` sub-bundle of the page snapshot (a numeric score). -/
structure PerformanceBundle where
  score : Int
  deriving DecidableEq, Repr

/-- Page snapshot dict produced by `WebScraper.scrape_page`. Fields the
embedded code never reads (`viewport`, `forms`, `interactive_elements`)
are omitted; optional entries model `'key' in page_data` checks. -/
structure PageData where
  url : String
  title : String := ""
  html : String := ""
  load_time_ms : Nat := 0
  accessibility : Option AccessibilityData := none
  performance : Option PerformanceBundle := none
  deriving DecidableEq, Repr

/-- `WebScraper.scrape_page`: the source currently returns fixed mock
data for every url (the acquisition options are read by no code path). -/
def scrapePage (url : String) : PageData :=
  { url := url
    title := "Test Page"
    html := "<html><body><h1>Test</h1><img src=\"test.jpg\"><button>Click me</button></body></html>"
    load_time_ms := 500
    accessibility := some
      { issues :=
          [{ type := "missing_alt_text"
             element := { tagName := some "img", selector := some "img:nth-of-type(1)" }
             message := "Image missing alt text" }] }
    performance := some { score := 85 } }

/-- Per-detector options sub-mapping (`self.config.get(name, {})`); the
only key the detectors read is `enabled`. -/
structure DetectorConfig where
  enabled : Option Bool := none
  deriving DecidableEq, Repr

/-- `AccessibilityDetector.is_enabled` composed with its constructor:
`self.enabled = self.config.get('enabled', True)`. -/
def accessibilityIsEnabled (config : DetectorConfig) : Bool :=
  config.enabled.getD true

/-- `PerformanceDetector.is_enabled`: `return False`, regardless of the
constructor's config argument. -/
def performanceIsEnabled (_config : DetectorConfig) : Bool :=
  false

/-- One registered detector as the orchestrator sees it: its
`is_enabled()` value and its `detect_issues` coroutine, which resolves
to either an issue list or an exception. -/
structure DetectorUnit where
  enabled : Bool
  detect : PageData → Except String (List QAIssue)

/-- One registered analyzer as the orchestrator sees it: its dict key
`self.analyzers[i].__class__.__name__.lower()` and its `analyze`
coroutine. -/
structure AnalyzerUnit where
  name : String
  analyze : PageData → Except String AnalyzerResult

/-- Dict keys produced by `_run_analyzers` for the registry built in
`QAAgent._load_analyzers` (`ContentAnalyzer`, `LayoutAnalyzer`,
`InteractionAnalyzer`, lowercased). -/
def registeredAnalyzerNames : List String :=
  ["contentanalyzer", "layoutanalyzer", "interactionanalyzer"]

/-- One iteration of the fan-in loop of `QAAgent._run_detectors`: an
exception result is logged and skipped, a success extends the aggregate
list. -/
def collectStep (all_issues : List QAIssue) (result : Except String (List QAIssue)) :
    List QAIssue :=
  match result with
  | .error _ => all_issues
  | .ok issues => all_issues ++ issues

/-- Fan-in loop of `QAAgent._run_detectors`. -/
def collectDetectorResults (detector_results : List (Except String (List QAIssue))) :
    List QAIssue :=
  detector_results.foldl collectStep []

/-- Task-building loop of `QAAgent._run_detectors`: a task is created
only for a detector whose `is_enabled()` is true, and each task resolves
to that detector's `detect_issues(page_data)` outcome. -/
def detectorTasks (detectors : List DetectorUnit) (page_data : PageData) :
    List (Except String (List QAIssue)) :=
  detectors.foldl (fun tasks detector =>
    if detector.enabled then tasks ++ [detector.detect page_data] else tasks) []

/-- `QAAgent._run_detectors`: build tasks for the enabled detectors,
gather, then flatten with exceptions skipped. -/
def runDetectors (detectors : List DetectorUnit) (page_data : PageData) :
    List QAIssue :=
  collectDetectorResults (detectorTasks detectors page_data)

/-- `combined_results[k] = v` on a Python dict: overwrite in place if the
key exists, else append (insertion order kept). -/
def dictSet : List (String × AnalyzerResult) → String → AnalyzerResult →
    List (String × AnalyzerResult)
  | [], k, v => [(k, v)]
  | (k', v') :: rest, k, v =>
      if k' = k then (k, v) :: rest else (k', v') :: dictSet rest k v

/-- One iteration of the fan-in loop of `QAAgent._run_analyzers`: a
failing analyzer is logged and contributes no entry; a successful one is
stored under its lowercased class name. -/
def analyzerStep (combined_results : List (String × AnalyzerResult))
    (p : String × Except String AnalyzerResult) : List (String × AnalyzerResult) :=
  match p.2 with
  | .error _ => combined_results
  | .ok result => dictSet combined_results p.1 result

/-- `QAAgent._run_analyzers`: every registered analyzer is invoked (no
enablement check), gathered, then combined into the analysis dict. -/
def runAnalyzers (analyzers : List AnalyzerUnit) (page_data : PageData) :
    List (String × AnalyzerResult) :=
  let analyzer_results := analyzers.map (fun a => (a.name, a.analyze page_data))
  analyzer_results.foldl analyzerStep []

/-- `QAAgent.analyze_website`. The page-data acquisition outcome, the
registries and the recommendation engine are parameters; the `except`
clause re-raises, so a failure of acquisition or of the recommendation
engine is the function's own failure. `timestamp` and
`execution_time_ms` are wall-clock readings passed in. -/
def analyzeWebsite (collectPageData : Except String PageData)
    (detectors : List DetectorUnit) (analyzers : List AnalyzerUnit)
    (generateRecommendations :
      List QAIssue → List (String × AnalyzerResult) → Except String (List String))
    (url : String) (timestamp execution_time_ms : ℚ) : Except String QAReport :=
  match collectPageData with
  | .error e => .error e
  | .ok page_data =>
    let all_issues := runDetectors detectors page_data
    let analysis_results := runAnalyzers analyzers page_data
    match generateRecommendations all_issues analysis_results with
    | .error e => .error e
    | .ok recommendations =>
        .ok { url := url
              timestamp := timestamp
              issues := all_issues
              summary := createSummary all_issues
              metrics := calculateMetrics all_issues analysis_results
              recommendations := recommendations
              execution_time_ms := execution_time_ms }

/-- `severity_map` dict in
`AccessibilityDetector._create_accessibility_issue`. -/
def severityMap : List (String × IssueSeverity) :=
  [("missing_alt_text", IssueSeverity.high),
   ("keyboard_accessibility", IssueSeverity.critical),
   ("color_contrast", IssueSeverity.medium),
   ("heading_structure", IssueSeverity.medium)]

/-- `AccessibilityDetector._get_issue_title`. -/
def getIssueTitle (issue_type : String) : String :=
  (([("missing_alt_text", "Image Missing Alt Text"),
     ("keyboard_accessibility", "Element Not Keyboard Accessible"),
     ("color_contrast", "Insufficient Color Contrast"),
     ("heading_structure", "Improper Heading Structure")] :
       List (String × String)).lookup issue_type).getD "Accessibility Issue"

/-- `AccessibilityDetector._get_expected_behavior`. -/
def getExpectedBehavior (issue_type : String) : String :=
  (([("missing_alt_text", "All images should have descriptive alt text"),
     ("keyboard_accessibility", "All interactive elements should be keyboard accessible"),
     ("color_contrast", "Text should have sufficient contrast ratio (4.5:1 minimum)"),
     ("heading_structure", "Headings should follow proper hierarchical structure")] :
       List (String × String)).lookup issue_type).getD "Element should be accessible"

/-- `AccessibilityDetector._get_wcag_guideline`. -/
def getWcagGuideline (issue_type : String) : String :=
  (([("missing_alt_text", "WCAG 2.1 - 1.1.1 Non-text Content"),
     ("keyboard_accessibility", "WCAG 2.1 - 2.1.1 Keyboard"),
     ("color_contrast", "WCAG 2.1 - 1.4.3 Contrast (Minimum)"),
     ("heading_structure", "WCAG 2.1 - 1.3.1 Info and Relationships")] :
       List (String × String)).lookup issue_type).getD "WCAG 2.1"

/-- `AccessibilityDetector._create_accessibility_issue`; `uid` stands
for the fresh `str(uuid.uuid4())`. -/
def createAccessibilityIssue (uid : String) (issue_data : RawObservation)
    (url : String) : QAIssue :=
  let issue_type := issue_data.type
  let element := issue_data.element
  { id := uid
    type := IssueType.accessibility
    severity := (severityMap.lookup issue_type).getD IssueSeverity.medium
    title := getIssueTitle issue_type
    description := issue_data.message
    element_selector := element.selector
    steps_to_reproduce :=
      ["Navigate to " ++ url,
       "Locate element: " ++ element.tagName.getD "unknown",
       "Check accessibility compliance"]
    expected_behavior := some (getExpectedBehavior issue_type)
    actual_behavior := some issue_data.message
    confidence := 9 / 10
    metadata :=
      [("wcag_guideline", MetaValue.str (getWcagGuideline issue_type)),
       ("element_details", MetaValue.elem element)] }

/-- `AccessibilityDetector.detect_issues`; `uidGen` supplies the uuid of
the issue built from the i-th observation. The Python guard
`if issue:` always passes (a dataclass instance is truthy), so every
created issue is appended. -/
def detectIssues (uidGen : Nat → String) (page_data : PageData) : List QAIssue :=
  match page_data.accessibility with
  | none => []
  | some accessibility_data =>
      accessibility_data.issues.enum.foldl (fun issues p =>
        issues ++ [createAccessibilityIssue (uidGen p.1) p.2 page_data.url]) []

example :
    (detectIssues (fun _ => "u0") (scrapePage "https://example.com")).length = 1 := by
  decide

example :
    (calculateMetrics (detectIssues (fun _ => "u0") (scrapePage "https://example.com"))
      []).quality_score = 88 := by decide

/-! Spec-side penalty tables, transcribed from the table in §4.1b of the
spec, to be compared against the chained conditionals in the code. -/

/-- Accessibility row of the spec's severity→penalty table. -/
def specAccessibilityPenalty : IssueSeverity → Int
  | .critical => 25
  | .high => 15
  | .medium => 5
  | .low => 1

/-- Security row of the spec's severity→penalty table. -/
def specSecurityPenalty : IssueSeverity → Int
  | .critical => 40
  | .high => 25
  | .medium => 10
  | .low => 2

/-- UX row of the spec's severity→penalty table. -/
def specUxPenalty : IssueSeverity → Int
  | .critical => 20
  | .high => 12
  | .medium => 6
  | .low => 2

/-- A shared concrete issue used to instantiate witnesses. -/
def exampleIssue (t : IssueType) (s : IssueSeverity) : QAIssue :=
  { id := "issue-1"
    type := t
    severity := s
    title := "Example issue"
    description := "an example issue" }

/-! Helper lemmas. -/

lemma specAccessibilityPenalty_eq (s : IssueSeverity) :
    (if s = IssueSeverity.critical then (25 : Int)
     else if s = IssueSeverity.high then 15
     else if s = IssueSeverity.medium then 5 else 1) = specAccessibilityPenalty s := by
  cases s <;> rfl

lemma specSecurityPenalty_eq (s : IssueSeverity) :
    (if s = IssueSeverity.critical then (40 : Int)
     else if s = IssueSeverity.high then 25
     else if s = IssueSeverity.medium then 10 else 2) = specSecurityPenalty s := by
  cases s <;> rfl

lemma specUxPenalty_eq (s : IssueSeverity) :
    (if s = IssueSeverity.critical then (20 : Int)
     else if s = IssueSeverity.high then 12
     else if s = IssueSeverity.medium then 6 else 2) = specUxPenalty s := by
  cases s <;> rfl

lemma calculateAccessibilityScore_eq_table (issues : List QAIssue) :
    calculateAccessibilityScore issues =
      if issues.filter (fun i => i.type = IssueType.accessibility) = [] then 100
      else max 0 (100 - ((issues.filter (fun i => i.type = IssueType.accessibility)).map
        (fun i => specAccessibilityPenalty i.severity)).sum) := by
  unfold calculateAccessibilityScore
  simp only [specAccessibilityPenalty_eq]

lemma calculateSecurityScore_eq_table (issues : List QAIssue) :
    calculateSecurityScore issues =
      if issues.filter (fun i => i.type = IssueType.security) = [] then 100
      else max 0 (100 - ((issues.filter (fun i => i.type = IssueType.security)).map
        (fun i => specSecurityPenalty i.severity)).sum) := by
  unfold calculateSecurityScore
  simp only [specSecurityPenalty_eq]

lemma calculateUxScore_eq_table (issues : List QAIssue) :
    calculateUxScore issues =
      if issues.filter (fun i => i.type = IssueType.ux) = [] then 100
      else max 0 (100 - ((issues.filter (fun i => i.type = IssueType.ux)).map
        (fun i => specUxPenalty i.severity)).sum) := by
  unfold calculateUxScore
  simp only [specUxPenalty_eq]

lemma countP_eq_zero_iff_filter_nil {α : Type} (p : α → Bool) (l : List α) :
    l.countP p = 0 ↔ l.filter p = [] := by
  rw [List.countP_eq_length_filter, List.length_eq_zero]

/-- C1: for every issue list, `quality_score` equals
`max 0 (100 − (critical_count·25 + high_count·10 + total_count·2))` where the
severity counts range over issues of every type and `total_count` is the
length of the list; a singleton list holding one accessibility issue of
high severity scores 88. -/
theorem quality_score_formula (issues : List QAIssue)
    (analysis : List (String × AnalyzerResult)) :
    (calculateMetrics issues analysis).quality_score =
      max 0 (100 -
        ((issues.countP (fun i => i.severity = IssueSeverity.critical) : Int) * 25
          + (issues.countP (fun i => i.severity = IssueSeverity.high) : Int) * 10
          + (issues.length : Int) * 2))
    ∧ ∀ issue : QAIssue, issue.type = IssueType.accessibility →
        issue.severity = IssueSeverity.high →
        (calculateMetrics [issue] analysis).quality_score = 88 := by
  constructor
  · simp only [calculateMetrics, List.countP_eq_length_filter]
  · intro issue _ hsev
    simp [calculateMetrics, List.filter, hsev]

/-- Witness for `quality_score_formula` at a concrete high-severity
accessibility issue. -/
theorem quality_score_formula_witness :
    (calculateMetrics [exampleIssue IssueType.accessibility IssueSeverity.high]
      []).quality_score = 88 :=
  (quality_score_formula [exampleIssue IssueType.accessibility IssueSeverity.high] []).2
    (exampleIssue IssueType.accessibility IssueSeverity.high) rfl rfl

/-- C2: each category score is 100 when no issue of the category's type is
present, and otherwise `max 0 (100 − Σ penalty(severity))` with the
category's row of the spec's penalty table. -/
theorem category_scores_formula (issues : List QAIssue) :
    ((issues.countP (fun i => i.type = IssueType.accessibility) = 0 →
        calculateAccessibilityScore issues = 100)
      ∧ (issues.countP (fun i => i.type = IssueType.accessibility) ≠ 0 →
        calculateAccessibilityScore issues =
          max 0 (100 - ((issues.filter (fun i => i.type = IssueType.accessibility)).map
            (fun i => specAccessibilityPenalty i.severity)).sum)))
    ∧ ((issues.countP (fun i => i.type = IssueType.security) = 0 →
        calculateSecurityScore issues = 100)
      ∧ (issues.countP (fun i => i.type = IssueType.security) ≠ 0 →
        calculateSecurityScore issues =
          max 0 (100 - ((issues.filter (fun i => i.type = IssueType.security)).map
            (fun i => specSecurityPenalty i.severity)).sum)))
    ∧ ((issues.countP (fun i => i.type = IssueType.ux) = 0 →
        calculateUxScore issues = 100)
      ∧ (issues.countP (fun i => i.type = IssueType.ux) ≠ 0 →
        calculateUxScore issues =
          max 0 (100 - ((issues.filter (fun i => i.type = IssueType.ux)).map
            (fun i => specUxPenalty i.severity)).sum))) := by
  exact ⟨⟨fun hz => by
      rw [calculateAccessibilityScore_eq_table,
        if_pos ((countP_eq_zero_iff_filter_nil _ _).mp hz)],
    fun hz => by
      rw [calculateAccessibilityScore_eq_table,
        if_neg (fun hf => hz ((countP_eq_zero_iff_filter_nil _ _).mpr hf))]⟩,
    ⟨fun hz => by
      rw [calculateSecurityScore_eq_table,
        if_pos ((countP_eq_zero_iff_filter_nil _ _).mp hz)],
    fun hz => by
      rw [calculateSecurityScore_eq_table,
        if_neg (fun hf => hz ((countP_eq_zero_iff_filter_nil _ _).mpr hf))]⟩,
    ⟨fun hz => by
      rw [calculateUxScore_eq_table,
        if_pos ((countP_eq_zero_iff_filter_nil _ _).mp hz)],
    fun hz => by
      rw [calculateUxScore_eq_table,
        if_neg (fun hf => hz ((countP_eq_zero_iff_filter_nil _ _).mpr hf))]⟩⟩

/-- Witness for `category_scores_formula`: the empty list scores 100 in
every category, and one critical security issue scores by the table. -/
theorem category_scores_formula_witness :
    (calculateAccessibilityScore [] = 100
      ∧ calculateSecurityScore [] = 100
      ∧ calculateUxScore [] = 100)
    ∧ calculateSecurityScore [exampleIssue IssueType.security IssueSeverity.critical] =
        max 0 (100 - (([exampleIssue IssueType.security
          IssueSeverity.critical].filter (fun i => i.type = IssueType.security)).map
            (fun i => specSecurityPenalty i.severity)).sum) :=
  ⟨⟨(category_scores_formula []).1.1 (by decide),
    (category_scores_formula []).2.1.1 (by decide),
    (category_scores_formula []).2.2.1 (by decide)⟩,
   (category_scores_formula
      [exampleIssue IssueType.security IssueSeverity.critical]).2.1.2 (by decide)⟩

/-! Summary lemmas for C4. -/

/-- `sum(d.values())` of a counter dict. -/
def dictValuesSum (m : List (String × Nat)) : Nat :=
  (m.map Prod.snd).sum

lemma dictIncr_valuesSum (m : List (String × Nat)) (k : String) :
    dictValuesSum (dictIncr m k) = dictValuesSum m + 1 := by
  induction m with
  | nil => rfl
  | cons entry rest ih =>
    obtain ⟨key, val⟩ := entry
    rcases eq_or_ne key k with hkey | hkey
    · simp only [dictIncr, if_pos hkey, dictValuesSum, List.map_cons, List.sum_cons]
      omega
    · simp only [dictIncr, if_neg hkey, dictValuesSum, List.map_cons,
        List.sum_cons] at ih ⊢
      omega

lemma foldl_summaryStep_total (issues : List QAIssue) (s : Summary) :
    (issues.foldl summaryStep s).total_issues = s.total_issues := by
  induction issues generalizing s with
  | nil => rfl
  | cons i rest ih => rw [List.foldl_cons, ih]; rfl

lemma foldl_summaryStep_by_severity (issues : List QAIssue) (s : Summary) :
    dictValuesSum (issues.foldl summaryStep s).by_severity =
      dictValuesSum s.by_severity + issues.length := by
  induction issues generalizing s with
  | nil => simp
  | cons i rest ih =>
    rw [List.foldl_cons, ih]
    simp [summaryStep, dictIncr_valuesSum]
    omega

lemma foldl_summaryStep_by_type (issues : List QAIssue) (s : Summary) :
    dictValuesSum (issues.foldl summaryStep s).by_type =
      dictValuesSum s.by_type + issues.length := by
  induction issues generalizing s with
  | nil => simp
  | cons i rest ih =>
    rw [List.foldl_cons, ih]
    simp [summaryStep, dictIncr_valuesSum]
    omega

lemma foldl_summaryStep_critical (issues : List QAIssue) (s : Summary) :
    (issues.foldl summaryStep s).critical_issues =
      s.critical_issues ++
        (issues.filter (fun i => i.severity = IssueSeverity.critical)).map
          (fun i => (i.title, i.type.value)) := by
  induction issues generalizing s with
  | nil => simp
  | cons i rest ih =>
    rw [List.foldl_cons, ih]
    by_cases h : i.severity = IssueSeverity.critical <;>
      simp [summaryStep, h, List.filter_cons]

/-- C4: the summary built by `_create_summary` partitions the issue list:
the `by_severity` counts and the `by_type` counts each sum to
`total_issues`, which is the length of the list, and `critical_issues`
lists the (title, type) pairs of the critical issues in encounter
order. -/
theorem summary_partition (issues : List QAIssue) :
    dictValuesSum (createSummary issues).by_severity = (createSummary issues).total_issues
    ∧ (createSummary issues).total_issues = issues.length
    ∧ dictValuesSum (createSummary issues).by_type = issues.length
    ∧ (createSummary issues).critical_issues =
        (issues.filter (fun i => i.severity = IssueSeverity.critical)).map
          (fun i => (i.title, i.type.value)) := by
  unfold createSummary
  refine ⟨?_, ?_, ?_, ?_⟩
  · rw [foldl_summaryStep_by_severity, foldl_summaryStep_total]
    simp [dictValuesSum]
  · rw [foldl_summaryStep_total]
  · rw [foldl_summaryStep_by_type]
    simp [dictValuesSum]
  · rw [foldl_summaryStep_critical]
    simp

/-! Score-range lemmas for C5. -/

lemma max_sub_sum_range (l : List Int) (h : ∀ x ∈ l, 0 ≤ x) :
    0 ≤ max 0 (100 - l.sum) ∧ max 0 (100 - l.sum) ≤ 100 := by
  have h0 : 0 ≤ l.sum := List.sum_nonneg h
  exact ⟨le_max_left _ _, max_le (by norm_num) (by omega)⟩

lemma calculateAccessibilityScore_range (issues : List QAIssue) :
    0 ≤ calculateAccessibilityScore issues ∧ calculateAccessibilityScore issues ≤ 100 := by
  rw [calculateAccessibilityScore_eq_table]
  split
  · norm_num
  · refine max_sub_sum_range _ (fun x hx => ?_)
    obtain ⟨i, _, rfl⟩ := List.mem_map.mp hx
    cases i.severity <;> simp [specAccessibilityPenalty]

lemma calculateSecurityScore_range (issues : List QAIssue) :
    0 ≤ calculateSecurityScore issues ∧ calculateSecurityScore issues ≤ 100 := by
  rw [calculateSecurityScore_eq_table]
  split
  · norm_num
  · refine max_sub_sum_range _ (fun x hx => ?_)
    obtain ⟨i, _, rfl⟩ := List.mem_map.mp hx
    cases i.severity <;> simp [specSecurityPenalty]

lemma calculateUxScore_range (issues : List QAIssue) :
    0 ≤ calculateUxScore issues ∧ calculateUxScore issues ≤ 100 := by
  rw [calculateUxScore_eq_table]
  split
  · norm_num
  · refine max_sub_sum_range _ (fun x hx => ?_)
    obtain ⟨i, _, rfl⟩ := List.mem_map.mp hx
    cases i.severity <;> simp [specUxPenalty]

lemma performance_score_eq (issues : List QAIssue)
    (analysis : List (String × AnalyzerResult)) :
    (calculateMetrics issues analysis).performance_score =
      (match analysis.lookup "performance" with
       | some r =>
           (match r.score with
            | some s => s
            | none => (100 : Int))
       | none => (100 : Int)) := rfl

/-- C5 counterexample: the claim fails as stated.  An analysis bundle
whose performance entry carries score 150 yields
`performance_score = 150 > 100`: `_calculate_metrics` copies the bundle
score without clamping. -/
theorem scores_range_counterexample :
    (calculateMetrics [] [("performance", { score := some 150 })]).performance_score = 150
    ∧ ¬ (calculateMetrics [] [("performance", { score := some 150 })]).performance_score ≤ 100 := by
  decide

/-- C5 amended: the quality, accessibility, security and ux scores always
lie within [0, 100]; the performance score lies within [0, 100] provided
the score carried by the bundle's performance entry (if any) does — in
particular it is 100 when absent. -/
theorem scores_range_amended (issues : List QAIssue)
    (analysis : List (String × AnalyzerResult))
    (hperf : ∀ r, analysis.lookup "performance" = some r →
      ∀ s, r.score = some s → 0 ≤ s ∧ s ≤ 100) :
    (0 ≤ (calculateMetrics issues analysis).quality_score
      ∧ (calculateMetrics issues analysis).quality_score ≤ 100)
    ∧ (0 ≤ (calculateMetrics issues analysis).accessibility_score
      ∧ (calculateMetrics issues analysis).accessibility_score ≤ 100)
    ∧ (0 ≤ (calculateMetrics issues analysis).performance_score
      ∧ (calculateMetrics issues analysis).performance_score ≤ 100)
    ∧ (0 ≤ (calculateMetrics issues analysis).security_score
      ∧ (calculateMetrics issues analysis).security_score ≤ 100)
    ∧ (0 ≤ (calculateMetrics issues analysis).ux_score
      ∧ (calculateMetrics issues analysis).ux_score ≤ 100) := by
  refine ⟨?_, ?_, ?_, ?_, ?_⟩
  · show 0 ≤ max 0 _ ∧ max 0 _ ≤ 100
    constructor
    · exact le_max_left _ _
    · refine max_le (by norm_num) ?_
      have h1 : (0 : Int) ≤
          ((issues.filter (fun i => i.severity = IssueSeverity.critical)).length : Int) * 25 :=
        by positivity
      have h2 : (0 : Int) ≤
          ((issues.filter (fun i => i.severity = IssueSeverity.high)).length : Int) * 10 :=
        by positivity
      have h3 : (0 : Int) ≤ (issues.length : Int) * 2 := by positivity
      omega
  · exact calculateAccessibilityScore_range issues
  · rw [performance_score_eq]
    cases hl : analysis.lookup "performance" with
    | none => simp
    | some r =>
      cases hs : r.score with
      | none => simp [hs]
      | some s =>
        have := hperf r hl s hs
        simp [hs, this.1, this.2]
  · exact calculateSecurityScore_range issues
  · exact calculateUxScore_range issues

/-- Witness for `scores_range_amended` at one concrete issue list and a
bundle whose performance entry carries score 85. -/
theorem scores_range_amended_witness :
    (0 ≤ (calculateMetrics [exampleIssue IssueType.security IssueSeverity.critical]
        [("performance", { score := some 85 })]).quality_score
      ∧ (calculateMetrics [exampleIssue IssueType.security IssueSeverity.critical]
        [("performance", { score := some 85 })]).quality_score ≤ 100)
    ∧ (0 ≤ (calculateMetrics [exampleIssue IssueType.security IssueSeverity.critical]
        [("performance", { score := some 85 })]).accessibility_score
      ∧ (calculateMetrics [exampleIssue IssueType.security IssueSeverity.critical]
        [("performance", { score := some 85 })]).accessibility_score ≤ 100)
    ∧ (0 ≤ (calculateMetrics [exampleIssue IssueType.security IssueSeverity.critical]
        [("performance", { score := some 85 })]).performance_score
      ∧ (calculateMetrics [exampleIssue IssueType.security IssueSeverity.critical]
        [("performance", { score := some 85 })]).performance_score ≤ 100)
    ∧ (0 ≤ (calculateMetrics [exampleIssue IssueType.security IssueSeverity.critical]
        [("performance", { score := some 85 })]).security_score
      ∧ (calculateMetrics [exampleIssue IssueType.security IssueSeverity.critical]
        [("performance", { score := some 85 })]).security_score ≤ 100)
    ∧ (0 ≤ (calculateMetrics [exampleIssue IssueType.security IssueSeverity.critical]
        [("performance", { score := some 85 })]).ux_score
      ∧ (calculateMetrics [exampleIssue IssueType.security IssueSeverity.critical]
        [("performance", { score := some 85 })]).ux_score ≤ 100) :=
  scores_range_amended [exampleIssue IssueType.security IssueSeverity.critical]
    [("performance", { score := some 85 })]
    (by intro r hr s hs; simp [List.lookup] at hr; subst hr; simp_all; omega)

/-! Analysis-bundle lookup lemmas for C3. -/

lemma lookup_dictSet (m : List (String × AnalyzerResult)) (k k' : String)
    (v : AnalyzerResult) :
    (dictSet m k v).lookup k' = if k' = k then some v else m.lookup k' := by
  induction m with
  | nil =>
    by_cases h : k' = k
    · subst h; simp [dictSet, List.lookup]
    · have hb : (k' == k) = false := beq_eq_false_iff_ne.mpr h
      simp [dictSet, List.lookup, hb, h]
  | cons entry rest ih =>
    obtain ⟨key, val⟩ := entry
    rcases eq_or_ne key k with hkey | hkey
    · subst hkey
      have hset : dictSet ((key, val) :: rest) key v = (key, v) :: rest := by
        simp [dictSet]
      rw [hset]
      rcases eq_or_ne k' key with hq | hq
      · subst hq; simp [List.lookup]
      · have hb : (k' == key) = false := beq_eq_false_iff_ne.mpr hq
        simp [List.lookup, hb, hq]
    · have hset : dictSet ((key, val) :: rest) k v = (key, val) :: dictSet rest k v := by
        simp [dictSet, hkey]
      rw [hset]
      rcases eq_or_ne k' key with hq | hq
      · subst hq
        simp [List.lookup, hkey]
      · have hb : (k' == key) = false := beq_eq_false_iff_ne.mpr hq
        simp [List.lookup, hb, ih]

lemma foldl_analyzerStep_lookup_none
    (pairs : List (String × Except String AnalyzerResult))
    (acc : List (String × AnalyzerResult)) (k : String)
    (hacc : acc.lookup k = none) (h : ∀ p ∈ pairs, p.1 ≠ k) :
    (pairs.foldl analyzerStep acc).lookup k = none := by
  induction pairs generalizing acc with
  | nil => exact hacc
  | cons p rest ih =>
    rw [List.foldl_cons]
    refine ih _ ?_ (fun q hq => h q (List.mem_cons_of_mem _ hq))
    obtain ⟨name, outcome⟩ := p
    cases outcome with
    | error e => exact hacc
    | ok r =>
      have hne : name ≠ k := h (name, Except.ok r) (List.mem_cons_self _ _)
      simpa [analyzerStep, lookup_dictSet, Ne.symm hne] using hacc

lemma runAnalyzers_lookup_registered (analyzers : List AnalyzerUnit)
    (page_data : PageData)
    (h : ∀ a ∈ analyzers, a.name ∈ registeredAnalyzerNames) :
    (runAnalyzers analyzers page_data).lookup "performance" = none := by
  unfold runAnalyzers
  refine foldl_analyzerStep_lookup_none _ _ _ rfl ?_
  intro p hp
  obtain ⟨a, ha, rfl⟩ := List.mem_map.mp hp
  have hmem := h a ha
  simp only [registeredAnalyzerNames, List.mem_cons, List.not_mem_nil, or_false] at hmem
  show a.name ≠ "performance"
  rcases hmem with h1 | h1 | h1 <;> rw [h1] <;> decide

/-- C3 counterexample: the claim fails as stated.  A run whose
Performance Analyzer reports score 85 stores that result under the
lowercased class name `performanceanalyzer`, which `_calculate_metrics`
never reads (it looks up the literal key `performance`), so
`performance_score` is 100, not 85. -/
theorem performance_score_counterexample :
    (calculateMetrics []
      (runAnalyzers
        [{ name := "performanceanalyzer",
           analyze := fun _ => Except.ok { score := some 85 } }]
        (scrapePage "https://example.com"))).performance_score = 100
    ∧ (calculateMetrics []
      (runAnalyzers
        [{ name := "performanceanalyzer",
           analyze := fun _ => Except.ok { score := some 85 } }]
        (scrapePage "https://example.com"))).performance_score ≠ 85 := by
  decide

/-- C3 amended: `performance_score` equals the score found under the
literal bundle key `performance` when present (100 when the entry or its
score is absent); bundles produced by the analyzer phase key entries by
lowercased analyzer class name, and the registered analyzers are
`contentanalyzer`, `layoutanalyzer`, `interactionanalyzer`, so every
analyzer-phase bundle yields `performance_score = 100` — a Performance
Analyzer reporting score 85 would be keyed `performanceanalyzer` and
still yield 100. -/
theorem performance_score_amended (issues : List QAIssue) :
    (∀ (analysis : List (String × AnalyzerResult)) (r : AnalyzerResult) (s : Int),
        analysis.lookup "performance" = some r → r.score = some s →
        (calculateMetrics issues analysis).performance_score = s)
    ∧ (∀ (analysis : List (String × AnalyzerResult)) (r : AnalyzerResult),
        analysis.lookup "performance" = some r → r.score = none →
        (calculateMetrics issues analysis).performance_score = 100)
    ∧ (∀ analysis : List (String × AnalyzerResult),
        analysis.lookup "performance" = none →
        (calculateMetrics issues analysis).performance_score = 100)
    ∧ (∀ (analyzers : List AnalyzerUnit) (page_data : PageData),
        (∀ a ∈ analyzers, a.name ∈ registeredAnalyzerNames) →
        (calculateMetrics issues
          (runAnalyzers analyzers page_data)).performance_score = 100) := by
  refine ⟨?_, ?_, ?_, ?_⟩
  · intro analysis r s hl hs
    rw [performance_score_eq, hl]
    simp [hs]
  · intro analysis r hl hs
    rw [performance_score_eq, hl]
    simp [hs]
  · intro analysis hl
    rw [performance_score_eq, hl]
  · intro analyzers page_data h
    rw [performance_score_eq, runAnalyzers_lookup_registered analyzers page_data h]

/-- Witness for `performance_score_amended`: a bundle with a literal
`performance` entry is read; a bundle built by the analyzer phase from a
registered analyzer is not. -/
theorem performance_score_amended_witness :
    (calculateMetrics [] [("performance", { score := some 85 })]).performance_score = 85
    ∧ (calculateMetrics []
        (runAnalyzers
          [{ name := "contentanalyzer", analyze := fun _ => Except.ok { score := none } }]
          (scrapePage "https://example.com"))).performance_score = 100 :=
  ⟨(performance_score_amended []).1 [("performance", { score := some 85 })]
      { score := some 85 } 85 (by decide) rfl,
   (performance_score_amended []).2.2.2
      [{ name := "contentanalyzer", analyze := fun _ => Except.ok { score := none } }]
      (scrapePage "https://example.com")
      (by intro a ha
          rw [List.mem_singleton] at ha
          subst ha
          decide)⟩

/-! Fan-in lemmas for C6 and C8. -/

lemma foldl_collectStep_acc (results : List (Except String (List QAIssue))) :
    ∀ acc : List QAIssue,
      results.foldl collectStep acc = acc ++ results.foldl collectStep [] := by
  induction results with
  | nil => intro acc; simp
  | cons r rest ih =>
    intro acc
    rw [List.foldl_cons, List.foldl_cons, ih (collectStep acc r), ih (collectStep [] r)]
    cases r <;> simp [collectStep]

lemma collectDetectorResults_map_ok (a : List (List QAIssue)) :
    collectDetectorResults (a.map Except.ok) = a.flatten := by
  induction a with
  | nil => rfl
  | cons x rest ih =>
    unfold collectDetectorResults at ih ⊢
    rw [List.map_cons, List.foldl_cons, foldl_collectStep_acc, ih]
    simp [collectStep]

lemma collectDetectorResults_append (xs ys : List (Except String (List QAIssue))) :
    collectDetectorResults (xs ++ ys) =
      collectDetectorResults xs ++ collectDetectorResults ys := by
  unfold collectDetectorResults
  rw [List.foldl_append, foldl_collectStep_acc]

lemma collectDetectorResults_error_cons (e : String)
    (rest : List (Except String (List QAIssue))) :
    collectDetectorResults (Except.error e :: rest) = collectDetectorResults rest := rfl

lemma detectorTasks_eq_filter_map (detectors : List DetectorUnit)
    (page_data : PageData) :
    detectorTasks detectors page_data =
      (detectors.filter (fun d => d.enabled)).map (fun d => d.detect page_data) := by
  suffices h : ∀ acc : List (Except String (List QAIssue)),
      detectors.foldl (fun tasks detector =>
        if detector.enabled then tasks ++ [detector.detect page_data] else tasks) acc =
        acc ++ (detectors.filter (fun d => d.enabled)).map
          (fun d => d.detect page_data) by
    simpa [detectorTasks] using h []
  induction detectors with
  | nil => intro acc; simp
  | cons d rest ih =>
    intro acc
    rw [List.foldl_cons]
    cases h : d.enabled <;> rw [ih] <;> simp [List.filter_cons, h]

/-- A detector that is enabled and returns `issues`. -/
def okDetector (issues : List QAIssue) : DetectorUnit :=
  { enabled := true, detect := fun _ => Except.ok issues }

/-- A detector that is enabled and raises `e`. -/
def failingDetector (e : String) : DetectorUnit :=
  { enabled := true, detect := fun _ => Except.error e }

lemma runDetectors_one_failure (a b : List (List QAIssue)) (e : String)
    (page_data : PageData) :
    runDetectors (a.map okDetector ++ failingDetector e :: b.map okDetector)
      page_data = (a ++ b).flatten := by
  unfold runDetectors
  rw [detectorTasks_eq_filter_map]
  have hfil :
      (a.map okDetector ++ failingDetector e :: b.map okDetector).filter
        (fun d => d.enabled) =
      a.map okDetector ++ failingDetector e :: b.map okDetector := by
    rw [List.filter_eq_self]
    intro d hd
    rcases List.mem_append.mp hd with h | h
    · obtain ⟨x, _, rfl⟩ := List.mem_map.mp h; rfl
    · rcases List.mem_cons.mp h with rfl | h
      · rfl
      · obtain ⟨x, _, rfl⟩ := List.mem_map.mp h; rfl
  rw [hfil]
  rw [List.map_append, List.map_cons, List.map_map, List.map_map]
  have hmap : ((fun d : DetectorUnit => d.detect page_data) ∘ okDetector) =
      Except.ok := rfl
  rw [hmap]
  rw [collectDetectorResults_append, collectDetectorResults_map_ok]
  rw [show (failingDetector e).detect page_data = Except.error e from rfl]
  rw [collectDetectorResults_error_cons, collectDetectorResults_map_ok,
    List.flatten_append]

/-- C6: when exactly one of the enabled detectors fails (raising `e`)
and the other N−1 succeed, the fan-in aggregate equals the concatenation
of the successful detectors' outputs, and a run using those detectors
completes successfully (the failure is not propagated), its report
carrying exactly that aggregate. -/
theorem detector_isolation (a b : List (List QAIssue)) (e : String)
    (page_data : PageData) (url : String) (recs : List String) (ts dur : ℚ) :
    collectDetectorResults (a.map Except.ok ++ Except.error e :: b.map Except.ok)
      = (a ++ b).flatten
    ∧ (analyzeWebsite (Except.ok page_data)
        (a.map okDetector ++ failingDetector e :: b.map okDetector)
        [] (fun _ _ => Except.ok recs) url ts dur).map (fun r => r.issues)
      = Except.ok ((a ++ b).flatten) := by
  constructor
  · rw [collectDetectorResults_append, collectDetectorResults_map_ok,
      collectDetectorResults_error_cons, collectDetectorResults_map_ok,
      List.flatten_append]
  · show Except.map _ _ = _
    rw [show analyzeWebsite (Except.ok page_data)
        (a.map okDetector ++ failingDetector e :: b.map okDetector)
        [] (fun _ _ => Except.ok recs) url ts dur =
      Except.ok { url := url
                  timestamp := ts
                  issues := runDetectors
                    (a.map okDetector ++ failingDetector e :: b.map okDetector)
                    page_data
                  summary := createSummary (runDetectors
                    (a.map okDetector ++ failingDetector e :: b.map okDetector)
                    page_data)
                  metrics := calculateMetrics (runDetectors
                    (a.map okDetector ++ failingDetector e :: b.map okDetector)
                    page_data) (runAnalyzers [] page_data)
                  recommendations := recs
                  execution_time_ms := dur } from rfl]
    rw [Except.map, runDetectors_one_failure]

/-- C7: a page-data acquisition failure, or a recommendation-engine
failure, is re-raised by `analyze_website` with the originating cause as
the surfaced error, and in either case no report value is produced. -/
theorem analysis_failure_propagation (detectors : List DetectorUnit)
    (analyzers : List AnalyzerUnit)
    (gen : List QAIssue → List (String × AnalyzerResult) → Except String (List String))
    (url : String) (ts dur : ℚ) :
    (∀ e : String,
      analyzeWebsite (Except.error e) detectors analyzers gen url ts dur =
        Except.error e
      ∧ ∀ r : QAReport,
          analyzeWebsite (Except.error e) detectors analyzers gen url ts dur ≠
            Except.ok r)
    ∧ (∀ (page_data : PageData) (e : String),
        gen (runDetectors detectors page_data) (runAnalyzers analyzers page_data) =
          Except.error e →
        analyzeWebsite (Except.ok page_data) detectors analyzers gen url ts dur =
          Except.error e
        ∧ ∀ r : QAReport,
            analyzeWebsite (Except.ok page_data) detectors analyzers gen url ts dur ≠
              Except.ok r) := by
  constructor
  · intro e
    refine ⟨rfl, fun r hr => ?_⟩
    exact Except.noConfusion hr
  · intro page_data e hgen
    have heq : analyzeWebsite (Except.ok page_data) detectors analyzers gen url ts dur =
        Except.error e := by
      unfold analyzeWebsite
      dsimp only
      rw [hgen]
    exact ⟨heq, fun r hr => Except.noConfusion (heq.symm.trans hr)⟩

/-- Witness for `analysis_failure_propagation`: a failed acquisition and
a failed recommendation engine each surface their cause and yield no
report. -/
theorem analysis_failure_propagation_witness :
    analyzeWebsite (Except.error "acquisition failed") [] []
      (fun _ _ => Except.ok []) "https://example.com" 0 0 =
        Except.error "acquisition failed"
    ∧ analyzeWebsite (Except.ok (scrapePage "https://example.com")) [] []
      (fun _ _ => Except.error "recommendation failed") "https://example.com" 0 0 =
        Except.error "recommendation failed" :=
  ⟨(analysis_failure_propagation [] [] (fun _ _ => Except.ok [])
      "https://example.com" 0 0).1 "acquisition failed" |>.1,
   ((analysis_failure_propagation [] [] (fun _ _ => Except.error "recommendation failed")
      "https://example.com" 0 0).2 (scrapePage "https://example.com")
      "recommendation failed" rfl).1⟩

/-- C8 counterexample: the claim fails as stated.  With options
`{'enabled': True}` the claimed config-derived rule (the enabled flag,
defaulting to enabled) yields true, but `PerformanceDetector.is_enabled`
returns the constant `False`. -/
theorem is_enabled_counterexample :
    performanceIsEnabled { enabled := some true } = false
    ∧ performanceIsEnabled { enabled := some true } ≠
        ({ enabled := some true } : DetectorConfig).enabled.getD true := by
  decide

/-- C8 amended: `AccessibilityDetector.is_enabled` is the config's
enabled flag defaulting to enabled, while
`PerformanceDetector.is_enabled` is constantly false regardless of its
config; both are pure; and the detection phase creates a task for
exactly those detectors whose `is_enabled()` returns true. -/
theorem is_enabled_amended :
    (accessibilityIsEnabled { enabled := none } = true
      ∧ ∀ b : Bool, accessibilityIsEnabled { enabled := some b } = b)
    ∧ (∀ config : DetectorConfig, performanceIsEnabled config = false)
    ∧ (∀ (detectors : List DetectorUnit) (page_data : PageData),
        detectorTasks detectors page_data =
          (detectors.filter (fun d => d.enabled)).map (fun d => d.detect page_data)) :=
  ⟨⟨rfl, fun b => by cases b <;> rfl⟩,
   fun _ => rfl,
   detectorTasks_eq_filter_map⟩

/-! C9 lemmas: the accumulation loop of `detect_issues` is a map. -/

lemma foldl_append_singleton {α β : Type} (f : α → β) (l : List α)
    (acc : List β) :
    l.foldl (fun issues x => issues ++ [f x]) acc = acc ++ l.map f := by
  induction l generalizing acc with
  | nil => simp
  | cons x rest ih =>
    rw [List.foldl_cons, ih]
    simp

/-- C9: when the page snapshot has no `accessibility` entry,
`detect_issues` returns the empty list; when it has one, it returns one
issue per raw observation, namely the issue created from the i-th
observation with the i-th fresh id. -/
theorem detect_issues_per_observation (uidGen : Nat → String)
    (page_data : PageData) :
    (page_data.accessibility = none → detectIssues uidGen page_data = [])
    ∧ ∀ accessibility_data : AccessibilityData,
        page_data.accessibility = some accessibility_data →
        detectIssues uidGen page_data =
          accessibility_data.issues.enum.map (fun p =>
            createAccessibilityIssue (uidGen p.1) p.2 page_data.url)
        ∧ (detectIssues uidGen page_data).length =
            accessibility_data.issues.length := by
  constructor
  · intro h
    unfold detectIssues
    rw [h]
  · intro accessibility_data h
    have heq : detectIssues uidGen page_data =
        accessibility_data.issues.enum.map (fun p =>
          createAccessibilityIssue (uidGen p.1) p.2 page_data.url) := by
      unfold detectIssues
      rw [h]
      dsimp only
      rw [foldl_append_singleton
        (fun p : Nat × RawObservation =>
          createAccessibilityIssue (uidGen p.1) p.2 page_data.url)]
      simp
    refine ⟨heq, ?_⟩
    rw [heq, List.length_map, List.enum_length]

/-- Witness for `detect_issues_per_observation`: a snapshot without an
accessibility entry yields no issues, and the scraper mock's snapshot
(one raw observation) yields exactly the issue created from it. -/
theorem detect_issues_per_observation_witness :
    detectIssues (fun _ => "uid-0") { url := "https://example.com" } = []
    ∧ detectIssues (fun _ => "uid-0") (scrapePage "https://example.com") =
        [createAccessibilityIssue "uid-0"
          { type := "missing_alt_text"
            element := { tagName := some "img", selector := some "img:nth-of-type(1)" }
            message := "Image missing alt text" }
          "https://example.com"]
    ∧ (detectIssues (fun _ => "uid-0") (scrapePage "https://example.com")).length = 1 :=
  ⟨(detect_issues_per_observation (fun _ => "uid-0")
      { url := "https://example.com" }).1 rfl,
   ((detect_issues_per_observation (fun _ => "uid-0")
      (scrapePage "https://example.com")).2
      { issues :=
          [{ type := "missing_alt_text"
             element := { tagName := some "img", selector := some "img:nth-of-type(1)" }
             message := "Image missing alt text" }] } rfl).1,
   ((detect_issues_per_observation (fun _ => "uid-0")
      (scrapePage "https://example.com")).2
      { issues :=
          [{ type := "missing_alt_text"
             element := { tagName := some "img", selector := some "img:nth-of-type(1)" }
             message := "Image missing alt text" }] } rfl).2⟩

/-- C10: every issue the accessibility detector constructs has type
`accessibility` and confidence 0.9, which lies in [0, 1]; and an
observation whose type tag is none of the four known tags gets severity
`medium` and the generic title. -/
theorem accessibility_issue_fields (uid : String) (issue_data : RawObservation)
    (url : String) :
    (createAccessibilityIssue uid issue_data url).type = IssueType.accessibility
    ∧ (createAccessibilityIssue uid issue_data url).confidence = 9 / 10
    ∧ (0 ≤ (createAccessibilityIssue uid issue_data url).confidence
        ∧ (createAccessibilityIssue uid issue_data url).confidence ≤ 1)
    ∧ (issue_data.type ∉
        ["missing_alt_text", "keyboard_accessibility", "color_contrast",
          "heading_structure"] →
        (createAccessibilityIssue uid issue_data url).severity = IssueSeverity.medium
        ∧ (createAccessibilityIssue uid issue_data url).title = "Accessibility Issue") := by
  refine ⟨rfl, rfl, ⟨by norm_num [createAccessibilityIssue], by norm_num [createAccessibilityIssue]⟩, ?_⟩
  intro h
  simp only [List.mem_cons, List.not_mem_nil, or_false, not_or] at h
  obtain ⟨h1, h2, h3, h4⟩ := h
  have hb1 : (issue_data.type == "missing_alt_text") = false :=
    beq_eq_false_iff_ne.mpr h1
  have hb2 : (issue_data.type == "keyboard_accessibility") = false :=
    beq_eq_false_iff_ne.mpr h2
  have hb3 : (issue_data.type == "color_contrast") = false :=
    beq_eq_false_iff_ne.mpr h3
  have hb4 : (issue_data.type == "heading_structure") = false :=
    beq_eq_false_iff_ne.mpr h4
  constructor
  · show (severityMap.lookup issue_data.type).getD IssueSeverity.medium =
      IssueSeverity.medium
    simp [severityMap, List.lookup, hb1, hb2, hb3, hb4]
  · show getIssueTitle issue_data.type = "Accessibility Issue"
    simp [getIssueTitle, List.lookup, hb1, hb2, hb3, hb4]

/-- Witness for `accessibility_issue_fields` at an observation with an
unknown type tag. -/
theorem accessibility_issue_fields_witness :
    (createAccessibilityIssue "uid-1"
      { type := "custom_check", element := {}, message := "custom" }
      "https://example.com").type = IssueType.accessibility
    ∧ (createAccessibilityIssue "uid-1"
      { type := "custom_check", element := {}, message := "custom" }
      "https://example.com").confidence = 9 / 10
    ∧ (createAccessibilityIssue "uid-1"
      { type := "custom_check", element := {}, message := "custom" }
      "https://example.com").severity = IssueSeverity.medium
    ∧ (createAccessibilityIssue "uid-1"
      { type := "custom_check", element := {}, message := "custom" }
      "https://example.com").title = "Accessibility Issue" :=
  ⟨(accessibility_issue_fields "uid-1"
      { type := "custom_check", element := {}, message := "custom" }
      "https://example.com").1,
   (accessibility_issue_fields "uid-1"
      { type := "custom_check", element := {}, message := "custom" }
      "https://example.com").2.1,
   ((accessibility_issue_fields "uid-1"
      { type := "custom_check", element := {}, message := "custom" }
      "https://example.com").2.2.2 (by decide)).1,
   ((accessibility_issue_fields "uid-1"
      { type := "custom_check", element := {}, message := "custom" }
      "https://example.com").2.2.2 (by decide)).2⟩
